import Mathlib

/-!
Shallow embedding of `bin/Screens.py` from the rpi_i2c_oled repository:
the Display adapter (driver selection, frame flip with optional rotation,
screenshot capture, the elapsed-time formatting helper) and the screen
framework (text layout tables, the font cache, display_text, and the
StatusScreen render).  External collaborators (PIL, the SSD1306/SSD1309
bus drivers, datetime, logging, the filesystem) are modelled by their
observable effects: draw calls, event traces, and abstract font objects.
-/

/-- Device driver implementations selectable by name in `Display.__init__`
(`SSD1306_128_32` and `SSD1309_128_64`, imported from `bin.SSD1306`). -/
inductive DeviceType where
  | ssd1306
  | ssd1309
  deriving DecidableEq, Repr

/-- Driver selection of `Display.__init__` (lines 24-32): `"SSD1306"` and
`"SSD1309"` pick the corresponding driver; any other name falls through to
the `else` branch, which constructs the SSD1306 driver ("Preserve current
behavior as default."). -/
def Display_select_device (driver : String) : DeviceType :=
  if driver = "SSD1306" then DeviceType.ssd1306
  else if driver = "SSD1309" then DeviceType.ssd1309
  else DeviceType.ssd1306

/-- Python runtime values that the `rotate` attribute can hold.  In Python,
`bool` is a subclass of `int`, which `isinstance(x, int)` reflects. -/
inductive PyVal where
  | bool (b : Bool)
  | int (n : Int)
  | str (s : String)
  | pynone
  deriving DecidableEq, Repr

/-- Python `isinstance(x, int)`: true for `int` values and for `bool`
values, because `bool` subclasses `int`. -/
def isinstance_int : PyVal → Bool
  | PyVal.bool _ => true
  | PyVal.int _ => true
  | _ => false

/-- Numeric value Python supplies when a `PyVal` is used as a rotation
angle (`False == 0`, `True == 1`); other cases are unreachable behind the
`isinstance(_, int)` guard in `Display.show`. -/
def rotate_degrees : PyVal → Int
  | PyVal.bool b => if b then 1 else 0
  | PyVal.int n => n
  | _ => 0

/-- Canvas-related state of a `Display` as observed by `show`: the rotate
setting, the identity of the current canvas object (`image_id`; PIL's
`Image.rotate` returns a fresh object, modelled by bumping the id), the
accumulated rotation applied to the canvas, and the canvas object the draw
context is bound to. -/
structure DisplayFrameState where
  rotate : PyVal
  image_id : Nat
  image_rotation : Int
  draw_target : Nat
  deriving DecidableEq, Repr

/-- Model of `Display.show` (lines 50-56): when `isinstance(self.rotate, int)` holds,
the canvas is replaced by `self.image.rotate(self.rotate)` (a fresh PIL
image) and the draw context is rebound to it; then the canvas is pushed to
the device and displayed.  The returned `Nat` is the id of the image handed
to `device.image`. -/
def Display_show (d : DisplayFrameState) : DisplayFrameState × Nat :=
  let d' :=
    if isinstance_int d.rotate then
      { d with image_id := d.image_id + 1,
               image_rotation := d.image_rotation + rotate_degrees d.rotate,
               draw_target := d.image_id + 1 }
    else d
  (d', d'.image_id)

/-- Default value of the `rotate` parameter of `Display.__init__`
(line 17): the Python literal `False`. -/
def Display_default_rotate : PyVal := PyVal.bool false

/-- A freshly constructed display canvas state with the default
`rotate = False` and no rotation applied yet. -/
def display0 : DisplayFrameState :=
  ⟨PyVal.bool false, 0, 0, 0⟩

/-- Values of the `screenshot` attribute: `False`, `True`, or a directory
string. -/
inductive ScreenshotSetting where
  | off
  | on
  | dir (d : String)
  deriving DecidableEq, Repr

/-- Python truthiness of the `screenshot` attribute (an empty directory
string is falsy). -/
def screenshot_truthy : ScreenshotSetting → Bool
  | ScreenshotSetting.off => false
  | ScreenshotSetting.on => true
  | ScreenshotSetting.dir d => d != ""

/-- Constant `Display.SCREENSHOT_PATH` (line 15). -/
def SCREENSHOT_PATH : String := "./img/examples/"

/-- Python `str.rstrip('/')`: drop trailing slash characters. -/
def rstrip_slash (s : String) : String :=
  String.mk (((s.data.reverse).dropWhile (fun c => c == '/')).reverse)

/-- Python `str.lower()`, applied character by character. -/
def py_lower (s : String) : String :=
  String.mk (s.data.map Char.toLower)

/-- Floor of a rational as an integer, computed by Euclidean division of
the numerator by the (positive) denominator; kernel-evaluable. -/
def qfloor (q : ℚ) : ℤ := Int.ediv q.num (Int.ofNat q.den)

/-- Exact-rational model of Python's fixed-point float format `.2f` used
in `human_readable_time_since` (line 110): round to the nearest hundredth
(ties rounded half-up in this model; CPython rounds the underlying binary
double to nearest with ties-to-even, which agrees on every tie-free value)
and print with exactly two digits after the decimal point. -/
def formatFixed2 (q : ℚ) : String :=
  let n : ℤ := qfloor (q * 100 + 1 / 2)
  let sign := if n < 0 then "-" else ""
  let m := n.natAbs
  sign ++ toString (m / 100) ++ "." ++
    (if m % 100 < 10 then "0" else "") ++ toString (m % 100)

/-- Core of `Display.human_readable_time_since` (lines 96-110), as a
function of `total_seconds`, the elapsed seconds between the parsed
ISO-8601 timestamp and the current UTC time.  Parsing
(`datetime.fromisoformat`) and `datetime.now` are external collaborators;
the unit choice and `f"{value:.2f}{unit} ago"` formatting are embedded
exactly. -/
def human_readable_time_since_core (total_seconds : ℚ) : String :=
  if total_seconds < 3600 then formatFixed2 (total_seconds / 60) ++ "m ago"
  else if total_seconds < 86400 then formatFixed2 (total_seconds / 3600) ++ "h ago"
  else formatFixed2 (total_seconds / 86400) ++ "d ago"

/-- A rasterized font as produced by `ImageFont.truetype(path, size)`,
identified by the file it was loaded from and its size. -/
structure FontObj where
  path : String
  size : Nat
  deriving DecidableEq, Repr

/-- The process-wide `BaseScreen.fonts` cache (line 116) plus a counter of
rasterizer (`ImageFont.truetype`) invocations, so that re-rasterization is
observable. -/
structure FontCache where
  entries : List (String × FontObj)
  rasterize_count : Nat
  deriving DecidableEq, Repr

/-- The initially empty font cache (`fonts = {}`, line 116). -/
def emptyFonts : FontCache := { entries := [], rasterize_count := 0 }

/-- Constant `BaseScreen.font_path` (line 114); `Utils.current_dir` is an external
collaborator and is elided from the modelled path. -/
def font_path : String := "/fonts/DejaVuSans.ttf"

/-- Constant `BaseScreen.font_bold_path` (line 115). -/
def font_bold_path : String := "/fonts/DejaVuSans-Bold.ttf"

/-- Per-screen mutable state touched by the text-layout engine:
`font_size` (initialized to 8 in `BaseScreen.__init__`), the `text_indent`
property (0 on `BaseScreen`, overridable per variant), and `text_lines`
(absent until `set_text_lines` first assigns it, hence `Option`). -/
structure ScreenState where
  font_size : Nat
  text_indent : Nat
  text_lines : Option Nat
  deriving DecidableEq, Repr

/-- A freshly constructed `BaseScreen`: `font_size = 8`, default indent 0,
`text_lines` not yet assigned. -/
def screen0 : ScreenState := { font_size := 8, text_indent := 0, text_lines := none }

/-- Cache key built by `BaseScreen.font` (lines 207-211):
`'font_{}{}'.format(str(size), suffix)` where `suffix` is the Python value
`None` — formatted as the string "None" — unless `is_bold`. -/
def font_key (size : Nat) (is_bold : Bool) : String :=
  "font_" ++ toString size ++ (if is_bold then "_bold" else "None")

/-- Model of `BaseScreen.font` (lines 202-220): resolve the effective size (Python
`if not size:` treats both `None` and `0` as absent and falls back to the
screen's `font_size`), build the cache key, and either return the cached
font or rasterize, memoize and return a new one. -/
def font (s : ScreenState) (cache : FontCache) (size : Option Nat) (is_bold : Bool) :
    FontObj × FontCache :=
  let sz := match size with
    | Option.none => s.font_size
    | Option.some n => if n = 0 then s.font_size else n
  let key := font_key sz is_bold
  match cache.entries.lookup key with
  | Option.some f => (f, cache)
  | Option.none =>
      let p := if is_bold then font_bold_path else font_path
      let f : FontObj := { path := p, size := sz }
      (f, { entries := (key, f) :: cache.entries,
            rasterize_count := cache.rasterize_count + 1 })

/-- Model of `BaseScreen.set_text_lines` (lines 173-187): record the line count and
derive `font_size` from the (line count, text_indent) table. -/
def set_text_lines (s : ScreenState) (num_lines : Nat) : ScreenState :=
  let s' := { s with text_lines := some num_lines }
  if num_lines > 2 then
    if s'.text_indent < 10 then { s' with font_size := 10 }
    else { s' with font_size := 9 }
  else
    if s'.text_indent < 10 then { s' with font_size := 14 }
    else { s' with font_size := 13 }

/-- Model of `BaseScreen.text_y` (lines 189-200) as a function of the
`text_lines` attribute: the fixed vertical-offset tables, and `None`
(here `Option.none`) for 6 or more lines. -/
def text_y (text_lines : Nat) : Option (List Nat) :=
  if text_lines = 1 then some [0]
  else if text_lines = 2 then some [0, 18]
  else if text_lines = 3 then some [0, 11, 21]
  else if text_lines < 6 then some [0, 11, 21, 31, 41, 51]
  else none

/-- One `draw.text((x, y), text, font=font, fill=255)` call recorded by
`display_text`. -/
structure DrawCall where
  x : Nat
  y : Nat
  text : String
  font : FontObj
  deriving DecidableEq, Repr

/-- Loop body of `BaseScreen.display_text` (lines 162-171).  Each
iteration reads `self.text_y[line]`: if the `text_y` property evaluates to
`None` (6 or more lines) Python raises `TypeError` on the subscript; an
out-of-range index would raise `IndexError`.  After drawing, `line` is
incremented and the `line >= 6` guard returns early. -/
def display_text_loop (s : ScreenState) (f : FontObj) :
    List String → Nat → List DrawCall → Except String (List DrawCall)
  | [], _, acc => Except.ok acc
  | t :: rest, line, acc =>
      match s.text_lines with
      | Option.none => Except.error "AttributeError: 'text_lines'"
      | Option.some tl =>
          match text_y tl with
          | Option.none => Except.error "TypeError: 'NoneType' object is not subscriptable"
          | Option.some ys =>
              match ys[line]? with
              | Option.none => Except.error "IndexError: list index out of range"
              | Option.some y =>
                  let acc' := acc ++ [{ x := s.text_indent, y := y, text := t, font := f }]
                  if line + 1 ≥ 6 then Except.ok acc'
                  else display_text_loop s f rest (line + 1) acc'

/-- Model of `BaseScreen.display_text` (lines 152-171): return immediately on an
empty sequence; otherwise call `set_text_lines(len(text_lines))`, resolve
the font (`self.font()`), and draw each line at
`(text_indent, text_y[line])`.  A raised exception is modelled as
`Except.error`. -/
def display_text (s : ScreenState) (cache : FontCache) (text_lines : List String) :
    Except String (ScreenState × FontCache × List DrawCall) :=
  if text_lines.isEmpty then Except.ok (s, cache, [])
  else
    let s' := set_text_lines s text_lines.length
    let fr := font s' cache Option.none false
    match display_text_loop s' fr.1 text_lines 0 [] with
    | Except.ok draws => Except.ok (s', fr.2, draws)
    | Except.error e => Except.error e

/-- Fuel-driven worker for `replace_all`; the fuel is an upper bound on
the number of characters still to scan, so with fuel `s.length` it is
never exhausted (each step consumes at least one character). -/
def replace_all_fuel : Nat → List Char → List Char → List Char → List Char
  | 0, s, _, _ => s
  | _ + 1, [], _, _ => []
  | fuel + 1, c :: rest, pat, rep =>
      if pat ≠ [] ∧ pat.isPrefixOf (c :: rest) then
        rep ++ replace_all_fuel fuel ((c :: rest).drop pat.length) pat rep
      else
        c :: replace_all_fuel fuel rest pat rep

/-- Python `str.replace(pat, rep)`: replace every non-overlapping
occurrence of `pat`, scanning left to right (no-op when `pat` is empty,
matching the `"screen"` pattern used by the caller). -/
def replace_all (s pat rep : List Char) : List Char :=
  replace_all_fuel s.length s pat rep

/-- Model of `BaseScreen.name` (lines 127-129):
`str(self.__class__.__name__).lower().replace("screen", "")`. -/
def BaseScreen_name (class_name : String) : String :=
  String.mk (replace_all (py_lower class_name).data "screen".data [])

/-- Reading of the spec's wording for the `name` property: the class name
lowercased, with a trailing "screen" suffix (and only a trailing one)
stripped. -/
def name_trailing_spec (class_name : String) : String :=
  let l := (py_lower class_name).data
  if ("screen".data).isSuffixOf l then String.mk (l.take (l.length - 6))
  else String.mk l

/-- Observable effects of a render cycle: recorded draw calls, screenshot
file writes, device flips (`device.image` + `device.display` in
`Display.show`), and `time.sleep` pacing. -/
inductive REvent where
  | draw (c : DrawCall)
  | screenshotWrite (path : String)
  | deviceFlip
  | sleep (duration : Nat)
  deriving DecidableEq, Repr

/-- Predicate selecting screenshot-write events. -/
def REvent.isScreenshotWrite : REvent → Bool
  | REvent.screenshotWrite _ => true
  | _ => false

/-- Predicate selecting device-flip events. -/
def REvent.isDeviceFlip : REvent → Bool
  | REvent.deviceFlip => true
  | _ => false

/-- Model of `Display.capture_screenshot` (lines 58-67): write the canvas to
`<dir rstripped of '/'>/<name lowercased>.png` when screenshots are
enabled; the directory is the screenshot setting itself when it is a
string, else the default path. -/
def Display_capture_screenshot (screenshot : ScreenshotSetting) (name : String) :
    List REvent :=
  if screenshot_truthy screenshot then
    let d := match screenshot with
      | ScreenshotSetting.dir d => d
      | _ => SCREENSHOT_PATH
    [REvent.screenshotWrite (rstrip_slash d ++ "/" ++ py_lower name ++ ".png")]
  else []

/-- Model of `BaseScreen.render_with_defaults` (lines 223-226): capture a
screenshot named after the screen, flip the frame to the device, then
sleep for the screen's duration. -/
def render_with_defaults (screen_name : String) (screenshot : ScreenshotSetting)
    (duration : Nat) : List REvent :=
  Display_capture_screenshot screenshot screen_name ++
    [REvent.deviceFlip, REvent.sleep duration]

/-- Stubbed collaborators of `StatusScreen.render`: the `Utils` hostname
and Home Assistant entity lookup, and the two `Display` time helpers
(all external to the layout logic under verification). -/
structure StatusStubs where
  get_hostname : String
  get_hassio_entity : String → String → String
  human_readable_time_now : String
  human_readable_time_since : String → String

/-- The local variable `hostname_line` of `StatusScreen.render`
(line 245): `f"{hostname} T={current_time} +" + current_time`.  It is
computed by the source but never used afterwards. -/
def StatusScreen_hostname_line (st : StatusStubs) : String :=
  st.get_hostname ++ " T=" ++ st.human_readable_time_now ++ " +" ++
    st.human_readable_time_now

/-- The `resource_line` of `StatusScreen.render` (line 250). -/
def StatusScreen_resource_line (st : StatusStubs) : String :=
  "C" ++ st.get_hassio_entity "sensor.system_monitor_processor_use" "state" ++
  "% M" ++ st.get_hassio_entity "sensor.system_monitor_memory_usage" "state" ++
  "% D" ++ st.get_hassio_entity "sensor.system_monitor_disk_usage" "state" ++
  "% t" ++ st.get_hassio_entity "sensor.system_monitor_processor_temperature" "state" ++
  "°C"

/-- The `ip_line` of `StatusScreen.render` (line 254). -/
def StatusScreen_ip_line (st : StatusStubs) : String :=
  "A " ++ st.get_hassio_entity "sensor.system_monitor_ipv4_address_end0" "state" ++
  " " ++ st.get_hassio_entity "sensor.system_monitor_ipv4_address_wlan0" "state"

/-- The `ping_line` of `StatusScreen.render` (lines 256-261): the latency
reading when the probe reports "on", else the sentinel "XXX". -/
def StatusScreen_ping_line (st : StatusStubs) : String :=
  if st.get_hassio_entity "binary_sensor.8_8_8_8" "state" = "on"
  then st.get_hassio_entity "sensor.8_8_8_8_round_trip_time_average" "state"
  else "XXX"

/-- The `wan` line of `StatusScreen.render` (line 264). -/
def StatusScreen_wan_line (st : StatusStubs) : String :=
  "P" ++ StatusScreen_ping_line st ++
  " U" ++ st.get_hassio_entity "sensor.wan_upload_speed_mbps" "state" ++
  " D" ++ st.get_hassio_entity "sensor.wan_download_speed_mbps" "state"

/-- The `boot` line of `StatusScreen.render` (lines 266-268). -/
def StatusScreen_boot_line (st : StatusStubs) : String :=
  "B " ++ st.human_readable_time_since
      (st.get_hassio_entity "sensor.system_monitor_last_boot" "state")

/-- The list handed to `display_text` by `StatusScreen.render`
(line 275): `[hostname, resource_line, ip_line, wan, boot]`.  Note the
first element is the bare `hostname`, not the unused `hostname_line`. -/
def StatusScreen_lines (st : StatusStubs) : List String :=
  [st.get_hostname, StatusScreen_resource_line st, StatusScreen_ip_line st,
   StatusScreen_wan_line st, StatusScreen_boot_line st]

/-- Model of `StatusScreen.render` (lines 242-277): gather and format the metric
lines, call `display_text`, then `render_with_defaults`.  The screen's
`name` is "status" (`BaseScreen_name "StatusScreen"`); logger calls are
external and not recorded. -/
def StatusScreen_render (st : StatusStubs) (s : ScreenState) (cache : FontCache)
    (screenshot : ScreenshotSetting) (duration : Nat) :
    Except String (ScreenState × FontCache × List REvent) :=
  match display_text s cache (StatusScreen_lines st) with
  | Except.error e => Except.error e
  | Except.ok (s', cache', draws) =>
      Except.ok (s', cache',
        draws.map REvent.draw ++
          render_with_defaults (BaseScreen_name "StatusScreen") screenshot duration)

/-- Decidable check that a list of offsets is strictly increasing. -/
def strictIncr : List Nat → Bool
  | [] => true
  | [_] => true
  | a :: b :: rest => decide (a < b) && strictIncr (b :: rest)

/-- Concrete stub collaborators used for counterexample evaluation. -/
def demoStubs : StatusStubs :=
  { get_hostname := "pi",
    get_hassio_entity := fun _ _ => "1",
    human_readable_time_now := "T[12:00:00]",
    human_readable_time_since := fun _ => "1.00h ago" }

/-! Theorems for the claims, in claim order. -/

/-- Claim C1 (code bug evaluation): `display_text` applied to 7 lines does
not draw the first 5 and drop the rest — `set_text_lines(7)` makes the
`text_y` property evaluate to `None`, so the very first loop iteration
raises `TypeError` on `self.text_y[line]` and nothing at all is drawn. -/
theorem display_text_seven_lines_raises :
    display_text screen0 emptyFonts ["1", "2", "3", "4", "5", "6", "7"] =
      Except.error "TypeError: 'NoneType' object is not subscriptable" := by
  rfl

/-- Claim C2 counterexample: with concrete stubbed collaborators, the
first line `StatusScreen.render` passes to `display_text` is the bare
hostname "pi"; the combined hostname-and-time string (the source's unused
`hostname_line` local) is different, and the current-time string does not
occur in the displayed first line at all. -/
theorem statusScreen_first_line_no_time :
    (StatusScreen_lines demoStubs).head? = Option.some "pi" ∧
    StatusScreen_hostname_line demoStubs = "pi T=T[12:00:00] +T[12:00:00]" ∧
    ("pi" : String) ≠ StatusScreen_hostname_line demoStubs ∧
    ¬ ("T[12:00:00]".data <:+: "pi".data) := by
  refine ⟨rfl, rfl, by decide, by decide⟩

/-- Helper: `set_text_lines` always records the requested line count. -/
theorem set_text_lines_text_lines_eq (s : ScreenState) (n : Nat) :
    (set_text_lines s n).text_lines = some n := by
  simp only [set_text_lines]
  split_ifs <;> rfl

/-- Helper: the `display_text` loop on exactly five lines draws all five
at the first five `text_y` offsets. -/
theorem display_text_loop_five (s : ScreenState) (f : FontObj)
    (l1 l2 l3 l4 l5 : String) (h : s.text_lines = some 5) :
    display_text_loop s f [l1, l2, l3, l4, l5] 0 [] =
      Except.ok [{ x := s.text_indent, y := 0, text := l1, font := f },
                 { x := s.text_indent, y := 11, text := l2, font := f },
                 { x := s.text_indent, y := 21, text := l3, font := f },
                 { x := s.text_indent, y := 31, text := l4, font := f },
                 { x := s.text_indent, y := 41, text := l5, font := f }] := by
  simp [display_text_loop, h, text_y]

/-- Helper: `StatusScreen.render` evaluated symbolically: it always
succeeds, producing the five draw calls for the five metric lines
followed by the `render_with_defaults` events. -/
theorem statusScreen_render_eq (st : StatusStubs) (s : ScreenState) (c : FontCache)
    (sc : ScreenshotSetting) (dur : Nat) :
    StatusScreen_render st s c sc dur =
      Except.ok (set_text_lines s 5,
        (font (set_text_lines s 5) c Option.none false).2,
        [REvent.draw ⟨(set_text_lines s 5).text_indent, 0, st.get_hostname, (font (set_text_lines s 5) c Option.none false).1⟩,
         REvent.draw ⟨(set_text_lines s 5).text_indent, 11, StatusScreen_resource_line st, (font (set_text_lines s 5) c Option.none false).1⟩,
         REvent.draw ⟨(set_text_lines s 5).text_indent, 21, StatusScreen_ip_line st, (font (set_text_lines s 5) c Option.none false).1⟩,
         REvent.draw ⟨(set_text_lines s 5).text_indent, 31, StatusScreen_wan_line st, (font (set_text_lines s 5) c Option.none false).1⟩,
         REvent.draw ⟨(set_text_lines s 5).text_indent, 41, StatusScreen_boot_line st, (font (set_text_lines s 5) c Option.none false).1⟩] ++
          render_with_defaults (BaseScreen_name "StatusScreen") sc dur) := by
  have h5 := set_text_lines_text_lines_eq s 5
  have hloop := display_text_loop_five (set_text_lines s 5)
      (font (set_text_lines s 5) c Option.none false).1
      st.get_hostname (StatusScreen_resource_line st) (StatusScreen_ip_line st)
      (StatusScreen_wan_line st) (StatusScreen_boot_line st) h5
  unfold StatusScreen_render display_text
  rw [show StatusScreen_lines st =
        [st.get_hostname, StatusScreen_resource_line st, StatusScreen_ip_line st,
         StatusScreen_wan_line st, StatusScreen_boot_line st] from rfl]
  simp only [List.isEmpty_cons, List.length_cons, List.length_nil, Bool.false_eq_true,
    if_false, hloop]
  rfl

/-- Claim C2 (amended): `StatusScreen.render` with stubbed collaborators
passes exactly 5 lines to `display_text`, in the order: the bare hostname
(the hostname-and-time string is computed but never displayed), then the
resource line, the IP line, the WAN line and the boot-since line; with
screenshots enabled it performs exactly one screenshot write and one
device flip. -/
theorem statusScreen_render_amended (st : StatusStubs) (s : ScreenState)
    (c : FontCache) (dur : Nat) :
    StatusScreen_lines st =
      [st.get_hostname, StatusScreen_resource_line st, StatusScreen_ip_line st,
       StatusScreen_wan_line st, StatusScreen_boot_line st] ∧
    (StatusScreen_lines st).length = 5 ∧
    ∃ s' c' evs,
      StatusScreen_render st s c ScreenshotSetting.on dur = Except.ok (s', c', evs) ∧
      evs.countP REvent.isScreenshotWrite = 1 ∧
      evs.countP REvent.isDeviceFlip = 1 := by
  refine ⟨rfl, rfl, _, _, _, statusScreen_render_eq st s c ScreenshotSetting.on dur, ?_, ?_⟩ <;>
    simp [render_with_defaults, Display_capture_screenshot, screenshot_truthy,
      List.countP_cons, List.countP_nil, List.countP_append,
      REvent.isScreenshotWrite, REvent.isDeviceFlip]

/-- Claim C3 counterexample: `text_y` with `text_lines = 4` returns the
full six-element offset table, not a list of exactly 4 offsets. -/
theorem text_y_four_length_counterexample :
    text_y 4 = some [0, 11, 21, 31, 41, 51] ∧
    ((text_y 4).getD []).length ≠ 4 := by
  decide

/-- Claim C3 (amended): for every line count n in {1,2,3,4,5}, `text_y`
returns a table of at least n offsets whose first n entries are strictly
increasing and start at 0; the table has exactly n entries for n ≤ 3 and
exactly 6 entries for n in {4,5} (the drawing loop indexes only the first
n of them). -/
theorem text_y_amended (n : Nat) (h : n ∈ [1, 2, 3, 4, 5]) :
    (text_y n).isSome = true ∧
    n ≤ ((text_y n).getD []).length ∧
    (((text_y n).getD []).take n).head? = some 0 ∧
    strictIncr (((text_y n).getD []).take n) = true ∧
    (n ≤ 3 → ((text_y n).getD []).length = n) ∧
    (4 ≤ n → ((text_y n).getD []).length = 6) := by
  fin_cases h <;> decide

/-- Witness for C3 at n = 3. -/
theorem text_y_amended_witness :
    3 ∈ [1, 2, 3, 4, 5] ∧
    ((text_y 3).isSome = true ∧
     3 ≤ ((text_y 3).getD []).length ∧
     (((text_y 3).getD []).take 3).head? = some 0 ∧
     strictIncr (((text_y 3).getD []).take 3) = true ∧
     (3 ≤ 3 → ((text_y 3).getD []).length = 3) ∧
     (4 ≤ 3 → ((text_y 3).getD []).length = 6)) :=
  ⟨by decide, text_y_amended 3 (by decide)⟩

/-- Claim C4: for every line count n in {1..5} and text_indent in
{0,9,10,20}, `set_text_lines(n)` sets `font_size` exactly per the table:
10 when n > 2 and indent < 10; 9 when n > 2 and indent ≥ 10; 14 when
n ≤ 2 and indent < 10; 13 when n ≤ 2 and indent ≥ 10. -/
theorem set_text_lines_font_size_table (s : ScreenState) (n : Nat)
    (hn : n ∈ [1, 2, 3, 4, 5]) (hi : s.text_indent ∈ [0, 9, 10, 20]) :
    (set_text_lines s n).font_size =
      if n > 2 then (if s.text_indent < 10 then 10 else 9)
      else (if s.text_indent < 10 then 14 else 13) := by
  simp only [set_text_lines]
  split_ifs <;> rfl

/-- Witness for C4 at n = 3, indent = 10 (the state built like a fresh
screen but with an overridden indent). -/
theorem set_text_lines_font_size_table_witness :
    3 ∈ [1, 2, 3, 4, 5] ∧ (10 : Nat) ∈ [0, 9, 10, 20] ∧
    (set_text_lines { font_size := 8, text_indent := 10, text_lines := none } 3).font_size =
      if 3 > 2 then (if (10 : Nat) < 10 then 10 else 9)
      else (if (10 : Nat) < 10 then 14 else 13) :=
  ⟨by decide, by decide,
   set_text_lines_font_size_table
     { font_size := 8, text_indent := 10, text_lines := none } 3 (by decide) (by decide)⟩

/-- Helper: `qfloor` agrees with the mathematical floor on the rationals. -/
theorem qfloor_eq_floor (q : ℚ) : qfloor q = ⌊q⌋ := by
  rw [Rat.floor_def]; rfl

/-- Helper: evaluating `formatFixed2` once the rounded hundredths value is
known. -/
theorem formatFixed2_eval (q : ℚ) (z : ℤ) (h : qfloor (q * 100 + 1 / 2) = z) :
    formatFixed2 q =
      (if z < 0 then "-" else "") ++ toString (z.natAbs / 100) ++ "." ++
        (if z.natAbs % 100 < 10 then "0" else "") ++ toString (z.natAbs % 100) := by
  simp only [formatFixed2, h]

/-- Claim C5: `human_readable_time_since`, as a function of the elapsed
seconds e, formats the value with exactly two decimal digits followed by
the unit and " ago", choosing minutes (e/60) when e < 3600, hours
(e/3600) when e < 86400, and days (e/86400) otherwise; in particular 90
minutes yields "1.50h ago", 30 seconds "0.50m ago", 2 days "2.00d ago". -/
theorem human_readable_time_since_spec (e : ℚ) :
    (e < 3600 → human_readable_time_since_core e = formatFixed2 (e / 60) ++ "m ago") ∧
    (3600 ≤ e → e < 86400 →
      human_readable_time_since_core e = formatFixed2 (e / 3600) ++ "h ago") ∧
    (86400 ≤ e → human_readable_time_since_core e = formatFixed2 (e / 86400) ++ "d ago") ∧
    human_readable_time_since_core 5400 = "1.50h ago" ∧
    human_readable_time_since_core 30 = "0.50m ago" ∧
    human_readable_time_since_core 172800 = "2.00d ago" := by
  refine ⟨?_, ?_, ?_, ?_, ?_, ?_⟩
  · intro h
    unfold human_readable_time_since_core
    rw [if_pos h]
  · intro h1 h2
    unfold human_readable_time_since_core
    rw [if_neg (not_lt.mpr h1), if_pos h2]
  · intro h
    unfold human_readable_time_since_core
    rw [if_neg (not_lt.mpr (le_trans (by norm_num) h)), if_neg (not_lt.mpr h)]
  · have h1 : qfloor ((5400 : ℚ) / 3600 * 100 + 1 / 2) = 150 := by
      rw [qfloor_eq_floor]; norm_num
    unfold human_readable_time_since_core
    rw [if_neg (by norm_num), if_pos (by norm_num), formatFixed2_eval _ 150 h1]
    decide
  · have h1 : qfloor ((30 : ℚ) / 60 * 100 + 1 / 2) = 50 := by
      rw [qfloor_eq_floor]; norm_num
    unfold human_readable_time_since_core
    rw [if_pos (by norm_num), formatFixed2_eval _ 50 h1]
    decide
  · have h1 : qfloor ((172800 : ℚ) / 86400 * 100 + 1 / 2) = 200 := by
      rw [qfloor_eq_floor]; norm_num
    unfold human_readable_time_since_core
    rw [if_neg (by norm_num), if_neg (by norm_num), formatFixed2_eval _ 200 h1]
    decide

/-- Witness for C5: the minutes branch applied at 30 elapsed seconds. -/
theorem human_readable_time_since_spec_witness :
    (30 : ℚ) < 3600 ∧
    human_readable_time_since_core 30 = formatFixed2 (30 / 60) ++ "m ago" :=
  ⟨by norm_num, (human_readable_time_since_spec 30).1 (by norm_num)⟩

/-- Claim C6: constructing a Display with any driver name outside
{"SSD1306", "SSD1309"} selects the same device type as the default name
"SSD1306" does — a silent fallback, not an error. -/
theorem unknown_driver_falls_back (driver : String)
    (h1 : driver ≠ "SSD1306") (h2 : driver ≠ "SSD1309") :
    Display_select_device driver = Display_select_device "SSD1306" := by
  simp [Display_select_device, h1, h2]

/-- Witness for C6 at the unrecognized name "SH1106". -/
theorem unknown_driver_falls_back_witness :
    ("SH1106" : String) ≠ "SSD1306" ∧ ("SH1106" : String) ≠ "SSD1309" ∧
    Display_select_device "SH1106" = Display_select_device "SSD1306" :=
  ⟨by decide, by decide, unknown_driver_falls_back "SH1106" (by decide) (by decide)⟩

/-- Claim C7: `display_text` on an empty sequence of lines returns
immediately: no draw calls are recorded, the screen state (including
`font_size`) is unchanged, and the font cache — hence the canvas — is
untouched. -/
theorem display_text_empty_noop (s : ScreenState) (c : FontCache) :
    display_text s c [] = Except.ok (s, c, []) := rfl

/-- Claim C8: for every screen class of the repository (BaseScreen,
ExitScreen, StatusScreen), the `name` property equals the class name
lowercased with the trailing "screen" suffix stripped. -/
theorem screen_name_strips_trailing_screen :
    BaseScreen_name "BaseScreen" = name_trailing_spec "BaseScreen" ∧
    BaseScreen_name "ExitScreen" = name_trailing_spec "ExitScreen" ∧
    BaseScreen_name "StatusScreen" = name_trailing_spec "StatusScreen" ∧
    BaseScreen_name "BaseScreen" = "base" ∧
    BaseScreen_name "ExitScreen" = "exit" ∧
    BaseScreen_name "StatusScreen" = "status" := by
  decide

/-- Claim C9: the font cache is idempotent per key: for a fixed explicit
(size, bold) request, a second call returns the identical cached font
object and leaves the cache — including the rasterizer invocation
counter — unchanged, whatever screen issues it and whatever the cache
already contains. -/
theorem font_cache_idempotent (size : Nat) (b : Bool) (s s' : ScreenState)
    (c : FontCache) (h : size ≠ 0) :
    (font s' (font s c (Option.some size) b).2 (Option.some size) b).1 =
      (font s c (Option.some size) b).1 ∧
    (font s' (font s c (Option.some size) b).2 (Option.some size) b).2 =
      (font s c (Option.some size) b).2 := by
  cases hl : c.entries.lookup (font_key size b) <;>
    simp [font, h, hl, List.lookup, beq_self_eq_true]

/-- Witness for C9: two calls to `font(12, false)` on a fresh screen and
an empty cache. -/
theorem font_cache_idempotent_witness :
    (12 : Nat) ≠ 0 ∧
    ((font screen0 (font screen0 emptyFonts (Option.some 12) false).2
        (Option.some 12) false).1 =
      (font screen0 emptyFonts (Option.some 12) false).1 ∧
     (font screen0 (font screen0 emptyFonts (Option.some 12) false).2
        (Option.some 12) false).2 =
      (font screen0 emptyFonts (Option.some 12) false).2) :=
  ⟨by decide, font_cache_idempotent 12 false screen0 screen0 emptyFonts (by decide)⟩

/-- Claim C10: with the default `rotate = False`, every `show()` call still
takes the rotation branch, because Python's `isinstance(False, int)` is
true: the canvas is rotated by 0 degrees (net rotation unchanged),
replaced by a fresh image object, and the draw context is rebound to the
new image; the new image is what is pushed to the device. -/
theorem show_rotates_with_default_false (d : DisplayFrameState)
    (h : d.rotate = Display_default_rotate) :
    isinstance_int d.rotate = true ∧
    (Display_show d).1.image_id = d.image_id + 1 ∧
    (Display_show d).1.draw_target = d.image_id + 1 ∧
    (Display_show d).1.image_rotation = d.image_rotation ∧
    rotate_degrees d.rotate = 0 ∧
    (Display_show d).2 = d.image_id + 1 := by
  simp [Display_show, isinstance_int, rotate_degrees, h, Display_default_rotate]

/-- Witness for C10 at a concrete freshly-constructed display state. -/
theorem show_rotates_with_default_false_witness :
    display0.rotate = Display_default_rotate ∧
    (isinstance_int display0.rotate = true ∧
     (Display_show display0).1.image_id = display0.image_id + 1 ∧
     (Display_show display0).1.draw_target = display0.image_id + 1 ∧
     (Display_show display0).1.image_rotation = display0.image_rotation ∧
     rotate_degrees display0.rotate = 0 ∧
     (Display_show display0).2 = display0.image_id + 1) :=
  ⟨rfl, show_rotates_with_default_false display0 rfl⟩
